import Mathlib

/-!
Verification of the state/time engine of the WebRDP (CloudVPS demo) repository.

The whole program lives in src/app.js. The engine under verification is the
IIFE named app (src/app.js lines 610-1011): a points ledger, a UTC daily
window, per-task cooldowns, a bounded activity log, and the VPS lease state
machine with its reconciling countdown tick. The UI, auth and routing layers
only call into these operations; they are modelled by their observable
inputs (whether a user is logged in, whether the confirm dialog was
accepted, the clock readings at each suspension point).

Conventions of the embedding:
- JS numbers that hold integers (points, seconds, millisecond timestamps)
  become Int.
- Date.now() and utcDateKey() are supplied by a Clock value carrying the
  millisecond instant and the UTC date key of that instant. An operation
  that suspends on the simulated delay takes two Clock readings: one at its
  guard phase and one when the continuation resumes.
- Math.floor of a quotient of integers is Int.fdiv (floor division).
- The module-level sessionEarned counter (display only, kept in
  sessionStorage, never read by any engine decision) is not modelled.
-/

namespace WebRDP

/-- Clock reading: Date.now() in milliseconds together with the UTC date key
utcDateKey() of that instant (src/app.js lines 55-64). -/
structure Clock where
  nowMs : Int
  today : String
deriving DecidableEq

/-- VPS status (src/app.js line 616: stopped | provisioning | running). -/
inductive VpsStatus
  | stopped
  | provisioning
  | running
deriving DecidableEq

/-- state.vps (src/app.js lines 615-619). -/
structure VpsState where
  status : VpsStatus
  timeLeftSec : Int
  lastTickMs : Int
deriving DecidableEq

/-- state.daily (src/app.js lines 620-624). -/
structure DailyState where
  utcDate : String
  earned : Int
  dailyClaimedUtcDate : String
deriving DecidableEq

/-- One per-task cooldown record (src/app.js lines 626-627). -/
structure TaskState where
  cooldownUntilMs : Int
deriving DecidableEq

/-- state.tasks (src/app.js lines 625-628): the two cooldown-gated tasks. -/
structure TasksState where
  video : TaskState
  short : TaskState
deriving DecidableEq

/-- One activity log entry (src/app.js line 664). -/
structure ActivityEntry where
  label : String
  delta : Int
  ts : Int
deriving DecidableEq

/-- The persisted engine state (src/app.js lines 613-630). -/
structure AppState where
  pointsBalance : Int
  vps : VpsState
  daily : DailyState
  tasks : TasksState
  activity : List ActivityEntry
deriving DecidableEq

/-- CFG.redeem.points (src/app.js line 20). -/
def redeemPoints : Int := 10

/-- CFG.redeem.seconds (src/app.js line 20): 6 hours. -/
def redeemSeconds : Int := 6 * 60 * 60

/-- CFG.extend.points (src/app.js line 21). -/
def extendPoints : Int := 50

/-- CFG.extend.seconds (src/app.js line 21): 1 hour. -/
def extendSeconds : Int := 60 * 60

/-- CFG.activityMax (src/app.js line 28). -/
def activityMax : Nat := 6

/-- The three task types of CFG.tasks (src/app.js lines 22-26). -/
inductive TaskType
  | video
  | short
  | daily
deriving DecidableEq

/-- Static per-task configuration record (src/app.js lines 22-26). -/
structure TaskCfg where
  reward : Int
  cooldownSec : Int
  label : String
deriving DecidableEq

/-- CFG.tasks (src/app.js lines 22-26). -/
def taskCfg : TaskType → TaskCfg
  | TaskType.video => ⟨5, 0, "Watched Ad"⟩
  | TaskType.short => ⟨2, 25, "Short Link Completed"⟩
  | TaskType.daily => ⟨10, 0, "Daily Bonus Achieved"⟩

/-- The user-facing failure conditions of the engine operations. The JS code
communicates them as early returns with a toast message; cancelled stands
for the silent return taken when the stop confirmation dialog is declined. -/
inductive EngineError
  | notLoggedIn
  | onCooldown
  | alreadyClaimedToday
  | alreadyActive
  | insufficientFunds
  | notRunning
  | nothingToExtend
  | cancelled
deriving DecidableEq

/-- pushActivity (src/app.js lines 663-667): unshift the new entry, keep the
first CFG.activityMax entries. -/
def pushActivity (s : AppState) (label : String) (delta : Int) (ts : Int) : AppState :=
  { s with activity := (⟨label, delta, ts⟩ :: s.activity).take activityMax }

/-- ensureDaily (src/app.js lines 669-678): if the stored UTC date differs
from today, reset the daily window for the new day. -/
def ensureDaily (s : AppState) (today : String) : AppState :=
  if s.daily.utcDate ≠ today then
    { s with daily := { utcDate := today, earned := 0, dailyClaimedUtcDate := "" } }
  else s

/-- The guard phase of runTask (src/app.js lines 824-836): the daily task is
gated on dailyClaimedUtcDate versus the cached today key, the other tasks on
their cooldown timestamp versus now. -/
def taskGuard (t : TaskType) (today : String) (now : Int) (s : AppState) : Option EngineError :=
  match t with
  | TaskType.daily =>
      if s.daily.dailyClaimedUtcDate = today then some EngineError.alreadyClaimedToday else none
  | TaskType.video =>
      if now < s.tasks.video.cooldownUntilMs then some EngineError.onCooldown else none
  | TaskType.short =>
      if now < s.tasks.short.cooldownUntilMs then some EngineError.onCooldown else none

/-- The post-delay reward phase of runTask (src/app.js lines 845-858): credit
the balance, re-run ensureDaily at the resume-time clock, bump earned, log
the activity, then either store the cached today key as the claimed date
(daily) or arm the cooldown from the resume-time clock (video/short). -/
def applyReward (t : TaskType) (today : String) (c1 : Clock) (s : AppState) : AppState :=
  let cfg := taskCfg t
  let s2 := { s with pointsBalance := s.pointsBalance + cfg.reward }
  let s3 := ensureDaily s2 c1.today
  let s4 := { s3 with daily := { s3.daily with earned := s3.daily.earned + cfg.reward } }
  let s5 := pushActivity s4 cfg.label cfg.reward c1.nowMs
  match t with
  | TaskType.daily => { s5 with daily := { s5.daily with dailyClaimedUtcDate := today } }
  | TaskType.video =>
      { s5 with tasks := { s5.tasks with video := ⟨c1.nowMs + cfg.cooldownSec * 1000⟩ } }
  | TaskType.short =>
      { s5 with tasks := { s5.tasks with short := ⟨c1.nowMs + cfg.cooldownSec * 1000⟩ } }

/-- runTask (src/app.js lines 813-862). c0 is the clock at entry (ensureDaily,
the cached today key, and the guard checks); c1 is the clock after the
simulated delay (reward crediting, activity timestamp, cooldown arming). -/
def runTask (loggedIn : Bool) (t : TaskType) (c0 c1 : Clock) (s : AppState) :
    AppState × Option EngineError :=
  let s1 := ensureDaily s c0.today
  if loggedIn = false then (s1, some EngineError.notLoggedIn)
  else
    match taskGuard t c0.today c0.nowMs s1 with
    | some e => (s1, some e)
    | none => (applyReward t c0.today c1 s1, none)

/-- The pre-delay phase of createVps (src/app.js lines 864-881): guards, then
debit the redeem cost and move to provisioning before the simulated delay. -/
def createVpsStart (loggedIn : Bool) (s : AppState) : AppState × Option EngineError :=
  if loggedIn = false then (s, some EngineError.notLoggedIn)
  else if s.vps.status = VpsStatus.running ∨ s.vps.status = VpsStatus.provisioning then
    (s, some EngineError.alreadyActive)
  else if s.pointsBalance < redeemPoints then (s, some EngineError.insufficientFunds)
  else
    ({ s with pointsBalance := s.pointsBalance - redeemPoints,
              vps := { s.vps with status := VpsStatus.provisioning } }, none)

/-- The post-delay phase of createVps (src/app.js lines 888-892): start the
lease running with the base duration and log the spend. -/
def createVpsFinish (c1 : Clock) (s : AppState) : AppState :=
  let s1 := { s with vps := { status := VpsStatus.running,
                              timeLeftSec := redeemSeconds,
                              lastTickMs := c1.nowMs } }
  pushActivity s1 "Redeemed VPS 6H" (-redeemPoints) c1.nowMs

/-- stopVps (src/app.js lines 899-922). ok is the outcome of the confirm
dialog, awaited after the not-running guard; declining returns silently
without mutation (modelled as the cancelled result). -/
def stopVps (loggedIn : Bool) (ok : Bool) (c : Clock) (s : AppState) :
    AppState × Option EngineError :=
  if loggedIn = false then (s, some EngineError.notLoggedIn)
  else if s.vps.status ≠ VpsStatus.running then (s, some EngineError.notRunning)
  else if ok = false then (s, some EngineError.cancelled)
  else
    ({ s with vps := { s.vps with status := VpsStatus.stopped, lastTickMs := c.nowMs } }, none)

/-- extendVps (src/app.js lines 924-944): nothing-to-extend guard, funds
guard, then debit and add the extension seconds. -/
def extendVps (loggedIn : Bool) (c : Clock) (s : AppState) : AppState × Option EngineError :=
  if loggedIn = false then (s, some EngineError.notLoggedIn)
  else if s.vps.timeLeftSec ≤ 0 then (s, some EngineError.nothingToExtend)
  else if s.pointsBalance < extendPoints then (s, some EngineError.insufficientFunds)
  else
    (pushActivity
      { s with pointsBalance := s.pointsBalance - extendPoints,
               vps := { s.vps with timeLeftSec := s.vps.timeLeftSec + extendSeconds } }
      "Extended time" (-extendPoints) c.nowMs, none)

/-- The last value used by tick (src/app.js line 952): lastTickMs with the
falsy-zero fallback to now. -/
def tickLast (now : Int) (v : VpsState) : Int :=
  if v.lastTickMs = 0 then now else v.lastTickMs

/-- Whole elapsed seconds since the last reconciliation (src/app.js line 953):
Math.floor of the millisecond delta over 1000. -/
def tickDelta (now : Int) (v : VpsState) : Int :=
  (now - tickLast now v).fdiv 1000

/-- The subtraction step of tick (src/app.js lines 955-959): when at least one
whole second elapsed, subtract it (floored at 0) and advance lastTickMs by
exactly that many whole seconds. -/
def tickSub (now : Int) (v : VpsState) : VpsState :=
  if 0 < tickDelta now v then
    { v with timeLeftSec := max 0 (v.timeLeftSec - tickDelta now v),
             lastTickMs := tickLast now v + tickDelta now v * 1000 }
  else v

/-- The expiry step of tick (src/app.js lines 961-967): when the remaining
time is exhausted, force the stopped status and stamp lastTickMs with now. -/
def tickExpire (now : Int) (v : VpsState) : VpsState :=
  if v.timeLeftSec ≤ 0 then
    { v with timeLeftSec := 0, status := VpsStatus.stopped, lastTickMs := now }
  else v

/-- The vps part of tick (src/app.js lines 950-968): the countdown applies
only while running with time left. -/
def tickVps (c : Clock) (v : VpsState) : VpsState :=
  if v.status = VpsStatus.running ∧ 0 < v.timeLeftSec then
    tickExpire c.nowMs (tickSub c.nowMs v)
  else v

/-- tick (src/app.js lines 947-974): ensureDaily first, then the countdown
reconciliation; rendering is out of scope. -/
def tick (c : Clock) (s : AppState) : AppState :=
  let s1 := ensureDaily s c.today
  { s1 with vps := tickVps c s1.vps }

/-- Load-time state normalization (src/app.js lines 632-642), specialised to
well-typed states: refresh a stale daily window, then defensively clear a
stale non-empty dailyClaimedUtcDate. -/
def normalizeState (today : String) (s : AppState) : AppState :=
  let s1 :=
    if s.daily.utcDate ≠ today then
      { s with daily := { utcDate := today, earned := 0, dailyClaimedUtcDate := "" } }
    else s
  if s1.daily.dailyClaimedUtcDate ≠ "" ∧ s1.daily.dailyClaimedUtcDate ≠ today then
    { s1 with daily := { s1.daily with dailyClaimedUtcDate := "" } }
  else s1

/-- One engine invocation, with the observable inputs it depends on: the
login flag, the confirm-dialog outcome, and the clock reading at each phase. -/
inductive Op
  | runTask (loggedIn : Bool) (t : TaskType) (c0 c1 : Clock)
  | createStart (loggedIn : Bool)
  | createFinish (c : Clock)
  | stop (loggedIn ok : Bool) (c : Clock)
  | extend (loggedIn : Bool) (c : Clock)
  | tick (c : Clock)

/-- Whether an operation is the post-delay completion of createVps. -/
def Op.isCreateFinish : Op → Bool
  | Op.createFinish _ => true
  | _ => false

/-- Apply one engine invocation to the state, discarding the result code. -/
def applyOp (s : AppState) : Op → AppState
  | Op.runTask li t c0 c1 => (runTask li t c0 c1 s).1
  | Op.createStart li => (createVpsStart li s).1
  | Op.createFinish c => createVpsFinish c s
  | Op.stop li ok c => (stopVps li ok c s).1
  | Op.extend li c => (extendVps li c s).1
  | Op.tick c => tick c s

/-- Apply a sequence of engine invocations in order. -/
def runOps (s : AppState) (ops : List Op) : AppState :=
  ops.foldl applyOp s

/-- Append a list of activity entries in order through pushActivity. -/
def pushMany (s : AppState) (es : List ActivityEntry) : AppState :=
  es.foldl (fun acc e => pushActivity acc e.label e.delta e.ts) s

/-- A Running lease with 3600 seconds left, as in the countdown scenario. -/
def scenState : AppState :=
  ⟨0, ⟨VpsStatus.running, 3600, 1000⟩, ⟨"2024-01-01", 0, ""⟩, ⟨⟨0⟩, ⟨0⟩⟩, []⟩

/-- Clock 1500 whole seconds after scenState.vps.lastTickMs. -/
def scenClock1 : Clock := ⟨1501000, "2024-01-01"⟩

/-- Clock a further 2200 whole seconds later. -/
def scenClock2 : Clock := ⟨3701000, "2024-01-01"⟩

/-- A Running lease about to expire with a sub-second remainder pending. -/
def cexTickState : AppState :=
  ⟨0, ⟨VpsStatus.running, 1, 1000⟩, ⟨"2024-01-01", 0, ""⟩, ⟨⟨0⟩, ⟨0⟩⟩, []⟩

/-- Clock 2.5 seconds after cexTickState.vps.lastTickMs. -/
def cexTickClock : Clock := ⟨3500, "2024-01-01"⟩

/-- A stopped lease with zero balance. -/
def witLedgerState : AppState :=
  ⟨0, ⟨VpsStatus.stopped, 0, 0⟩, ⟨"2024-01-01", 0, ""⟩, ⟨⟨0⟩, ⟨0⟩⟩, []⟩

/-- A short operation sequence used to instantiate the ledger invariant. -/
def witLedgerOps : List Op :=
  [Op.createStart true, Op.extend true ⟨1000, "2024-01-01"⟩, Op.tick ⟨2000, "2024-01-01"⟩]

/-- A state whose daily bonus was already claimed today. -/
def c3StateClaimed : AppState :=
  ⟨42, ⟨VpsStatus.stopped, 0, 0⟩, ⟨"2024-01-01", 10, "2024-01-01"⟩, ⟨⟨0⟩, ⟨0⟩⟩, []⟩

/-- A state whose daily bonus is unclaimed for the current day. -/
def c3StateFresh : AppState :=
  ⟨42, ⟨VpsStatus.stopped, 0, 0⟩, ⟨"2024-01-01", 0, ""⟩, ⟨⟨0⟩, ⟨0⟩⟩, []⟩

/-- A clock during the day both c3 states consider current. -/
def c3Clock : Clock := ⟨5000, "2024-01-01"⟩

/-- A state ready to claim the daily bonus just before a UTC rollover. -/
def c4State : AppState :=
  ⟨0, ⟨VpsStatus.stopped, 0, 0⟩, ⟨"2024-01-01", 0, ""⟩, ⟨⟨0⟩, ⟨0⟩⟩, []⟩

/-- Clock at the start of the daily claim, before midnight UTC. -/
def c4Clock0 : Clock := ⟨0, "2024-01-01"⟩

/-- Clock when the claim's delayed continuation resumes, after midnight UTC. -/
def c4Clock1 : Clock := ⟨90000000, "2024-01-02"⟩

/-- A stopped lease with exactly the create cost in points. -/
def c5Stopped : AppState :=
  ⟨10, ⟨VpsStatus.stopped, 0, 0⟩, ⟨"2024-01-01", 0, ""⟩, ⟨⟨0⟩, ⟨0⟩⟩, []⟩

/-- Clock at which the provisioning delay completes. -/
def c5Clock : Clock := ⟨7000, "2024-01-01"⟩

/-- A Running lease with paused-time and balance to spare. -/
def c6Running : AppState :=
  ⟨100, ⟨VpsStatus.running, 500, 1000⟩, ⟨"2024-01-01", 0, ""⟩, ⟨⟨0⟩, ⟨0⟩⟩, []⟩

/-- A Stopped lease with unused time and balance to spare. -/
def c6Stopped : AppState :=
  ⟨100, ⟨VpsStatus.stopped, 500, 2000⟩, ⟨"2024-01-01", 0, ""⟩, ⟨⟨0⟩, ⟨0⟩⟩, []⟩

/-- Clock for the stop call. -/
def c6ClockA : Clock := ⟨2000, "2024-01-01"⟩

/-- Clock for the extend call. -/
def c6ClockB : Clock := ⟨3000, "2024-01-01"⟩

/-- A provisioning lease that still carries more paused time than the base
lease duration (reachable: extend a lease, stop it, then create again). -/
def c7State : AppState :=
  ⟨0, ⟨VpsStatus.provisioning, 25200, 0⟩, ⟨"2024-01-01", 0, ""⟩, ⟨⟨0⟩, ⟨0⟩⟩, []⟩

/-- Clock at which the provisioning delay of c7State completes. -/
def c7Clock : Clock := ⟨1000, "2024-01-01"⟩

/-- A stopped lease with a little time left, for the monotonicity witness. -/
def c7WitState : AppState :=
  ⟨0, ⟨VpsStatus.stopped, 5, 0⟩, ⟨"2024-01-01", 0, ""⟩, ⟨⟨0⟩, ⟨0⟩⟩, []⟩

/-- A state with a current window but a stale non-empty claimed date. -/
def c8State : AppState :=
  ⟨0, ⟨VpsStatus.stopped, 0, 0⟩, ⟨"2024-01-02", 0, "2024-01-01"⟩, ⟨⟨0⟩, ⟨0⟩⟩, []⟩

/-- An empty-log state for the activity-log witnesses. -/
def c9State : AppState :=
  ⟨0, ⟨VpsStatus.stopped, 0, 0⟩, ⟨"2024-01-01", 0, ""⟩, ⟨⟨0⟩, ⟨0⟩⟩, []⟩

/-- Seven activity entries appended in order (N + k with N = 6, k = 1). -/
def c9Es : List ActivityEntry :=
  [⟨"t1", 1, 1⟩, ⟨"t2", 2, 2⟩, ⟨"t3", 3, 3⟩, ⟨"t4", 4, 4⟩,
   ⟨"t5", 5, 5⟩, ⟨"t6", 6, 6⟩, ⟨"t7", 7, 7⟩]

/-- A state that is both stale-dated and has its short task on cooldown. -/
def c10State : AppState :=
  ⟨3, ⟨VpsStatus.stopped, 0, 0⟩, ⟨"2024-01-01", 7, ""⟩, ⟨⟨0⟩, ⟨1000000⟩⟩, []⟩

/-- Clock at the guard phase: next UTC day, still within the cooldown. -/
def c10Clock0 : Clock := ⟨500, "2024-01-02"⟩

/-- Clock at the resume phase of the same call. -/
def c10Clock1 : Clock := ⟨600, "2024-01-02"⟩

@[simp] lemma ensureDaily_vps (s : AppState) (t : String) : (ensureDaily s t).vps = s.vps := by
  unfold ensureDaily; split <;> rfl

@[simp] lemma ensureDaily_balance (s : AppState) (t : String) :
    (ensureDaily s t).pointsBalance = s.pointsBalance := by
  unfold ensureDaily; split <;> rfl

@[simp] lemma ensureDaily_tasks (s : AppState) (t : String) :
    (ensureDaily s t).tasks = s.tasks := by
  unfold ensureDaily; split <;> rfl

@[simp] lemma ensureDaily_activity (s : AppState) (t : String) :
    (ensureDaily s t).activity = s.activity := by
  unfold ensureDaily; split <;> rfl

lemma ensureDaily_eq_self (s : AppState) (t : String) (h : s.daily.utcDate = t) :
    ensureDaily s t = s := by
  simp [ensureDaily, h]

lemma ensureDaily_reset (s : AppState) (t : String) (h : s.daily.utcDate ≠ t) :
    ensureDaily s t = { s with daily := ⟨t, 0, ""⟩ } := by
  simp [ensureDaily, h]

@[simp] lemma pushActivity_balance (s : AppState) (l : String) (d ts : Int) :
    (pushActivity s l d ts).pointsBalance = s.pointsBalance := rfl

@[simp] lemma pushActivity_vps (s : AppState) (l : String) (d ts : Int) :
    (pushActivity s l d ts).vps = s.vps := rfl

@[simp] lemma pushActivity_daily (s : AppState) (l : String) (d ts : Int) :
    (pushActivity s l d ts).daily = s.daily := rfl

@[simp] lemma pushActivity_tasks (s : AppState) (l : String) (d ts : Int) :
    (pushActivity s l d ts).tasks = s.tasks := rfl

lemma pushActivity_activity (s : AppState) (l : String) (d ts : Int) :
    (pushActivity s l d ts).activity = (⟨l, d, ts⟩ :: s.activity).take activityMax := rfl

lemma applyReward_balance (t : TaskType) (today : String) (c1 : Clock) (s : AppState) :
    (applyReward t today c1 s).pointsBalance = s.pointsBalance + (taskCfg t).reward := by
  cases t <;> simp [applyReward]

lemma applyReward_vps (t : TaskType) (today : String) (c1 : Clock) (s : AppState) :
    (applyReward t today c1 s).vps = s.vps := by
  cases t <;> simp [applyReward]

lemma applyReward_activity (t : TaskType) (today : String) (c1 : Clock) (s : AppState) :
    (applyReward t today c1 s).activity =
      (⟨(taskCfg t).label, (taskCfg t).reward, c1.nowMs⟩ :: s.activity).take activityMax := by
  cases t <;> simp [applyReward, pushActivity_activity]

lemma applyReward_daily_claimed (today : String) (c1 : Clock) (s : AppState) :
    (applyReward TaskType.daily today c1 s).daily.dailyClaimedUtcDate = today := rfl

lemma runTask_cases (li : Bool) (t : TaskType) (c0 c1 : Clock) (s : AppState) :
    (∃ e, runTask li t c0 c1 s = (ensureDaily s c0.today, some e)) ∨
      runTask li t c0 c1 s = (applyReward t c0.today c1 (ensureDaily s c0.today), none) := by
  cases li with
  | false => exact Or.inl ⟨EngineError.notLoggedIn, rfl⟩
  | true =>
    rcases hg : taskGuard t c0.today c0.nowMs (ensureDaily s c0.today) with _ | e
    · right; simp [runTask, hg]
    · exact Or.inl ⟨e, by simp [runTask, hg]⟩

lemma createVpsStart_cases (li : Bool) (s : AppState) :
    ((createVpsStart li s).1 = s ∧ (createVpsStart li s).2.isSome = true) ∨
      (createVpsStart li s =
        ({ s with pointsBalance := s.pointsBalance - redeemPoints,
                  vps := { s.vps with status := VpsStatus.provisioning } }, none) ∧
        redeemPoints ≤ s.pointsBalance ∧
        ¬(s.vps.status = VpsStatus.running ∨ s.vps.status = VpsStatus.provisioning) ∧
        li = true) := by
  unfold createVpsStart
  split_ifs with h1 h2 h3
  · exact Or.inl ⟨rfl, rfl⟩
  · exact Or.inl ⟨rfl, rfl⟩
  · exact Or.inl ⟨rfl, rfl⟩
  · exact Or.inr ⟨rfl, by omega, h2, by simpa using h1⟩

lemma stopVps_cases (li ok : Bool) (c : Clock) (s : AppState) :
    ((stopVps li ok c s).1 = s ∧ (stopVps li ok c s).2.isSome = true) ∨
      (stopVps li ok c s =
        ({ s with vps := { s.vps with status := VpsStatus.stopped, lastTickMs := c.nowMs } },
          none) ∧
        s.vps.status = VpsStatus.running) := by
  unfold stopVps
  split_ifs with h1 h2 h3
  · exact Or.inl ⟨rfl, rfl⟩
  · exact Or.inl ⟨rfl, rfl⟩
  · exact Or.inl ⟨rfl, rfl⟩
  · exact Or.inr ⟨rfl, by simpa using h2⟩

lemma extendVps_cases (li : Bool) (c : Clock) (s : AppState) :
    ((extendVps li c s).1 = s ∧ (extendVps li c s).2.isSome = true) ∨
      (extendVps li c s =
        (pushActivity
          { s with pointsBalance := s.pointsBalance - extendPoints,
                   vps := { s.vps with timeLeftSec := s.vps.timeLeftSec + extendSeconds } }
          "Extended time" (-extendPoints) c.nowMs, none) ∧
        extendPoints ≤ s.pointsBalance ∧ 0 < s.vps.timeLeftSec) := by
  unfold extendVps
  split_ifs with h1 h2 h3
  · exact Or.inl ⟨rfl, rfl⟩
  · exact Or.inl ⟨rfl, rfl⟩
  · exact Or.inl ⟨rfl, rfl⟩
  · exact Or.inr ⟨rfl, by omega, by omega⟩

@[simp] lemma tick_vps (c : Clock) (s : AppState) : (tick c s).vps = tickVps c s.vps := by
  simp [tick]

@[simp] lemma tick_balance (c : Clock) (s : AppState) :
    (tick c s).pointsBalance = s.pointsBalance := by
  simp [tick]

@[simp] lemma tick_tasks (c : Clock) (s : AppState) : (tick c s).tasks = s.tasks := by
  simp [tick]

@[simp] lemma tick_activity (c : Clock) (s : AppState) : (tick c s).activity = s.activity := by
  simp [tick]

lemma tick_daily (c : Clock) (s : AppState) :
    (tick c s).daily = (ensureDaily s c.today).daily := by
  simp [tick]

lemma tickVps_not_running (c : Clock) (v : VpsState) (h : v.status ≠ VpsStatus.running) :
    tickVps c v = v := by
  simp [tickVps, h]

@[simp] lemma createVpsFinish_balance (c : Clock) (s : AppState) :
    (createVpsFinish c s).pointsBalance = s.pointsBalance := rfl

@[simp] lemma createVpsFinish_daily (c : Clock) (s : AppState) :
    (createVpsFinish c s).daily = s.daily := rfl

@[simp] lemma createVpsFinish_tasks (c : Clock) (s : AppState) :
    (createVpsFinish c s).tasks = s.tasks := rfl

lemma createVpsFinish_vps (c : Clock) (s : AppState) :
    (createVpsFinish c s).vps = ⟨VpsStatus.running, redeemSeconds, c.nowMs⟩ := rfl

lemma createVpsFinish_activity (c : Clock) (s : AppState) :
    (createVpsFinish c s).activity =
      (⟨"Redeemed VPS 6H", -redeemPoints, c.nowMs⟩ :: s.activity).take activityMax := rfl

lemma tickVps_running_spec (c : Clock) (v : VpsState)
    (hs : v.status = VpsStatus.running) (ht : 0 < v.timeLeftSec)
    (hl : v.lastTickMs ≠ 0) (hc : v.lastTickMs ≤ c.nowMs) :
    (tickVps c v).timeLeftSec = max 0 (v.timeLeftSec - (c.nowMs - v.lastTickMs).fdiv 1000) ∧
    (0 < (tickVps c v).timeLeftSec →
      (tickVps c v).status = VpsStatus.running ∧
      (tickVps c v).lastTickMs = v.lastTickMs + (c.nowMs - v.lastTickMs).fdiv 1000 * 1000) ∧
    ((tickVps c v).timeLeftSec = 0 →
      (tickVps c v).status = VpsStatus.stopped ∧ (tickVps c v).lastTickMs = c.nowMs) := by
  have hlast : tickLast c.nowMs v = v.lastTickMs := if_neg hl
  have hdel : tickDelta c.nowMs v = (c.nowMs - v.lastTickMs).fdiv 1000 := by
    unfold tickDelta; rw [hlast]
  have hd0 : 0 ≤ (c.nowMs - v.lastTickMs).fdiv 1000 :=
    Int.fdiv_nonneg (by omega) (by norm_num)
  rw [tickVps, if_pos ⟨hs, ht⟩]
  unfold tickSub
  rw [hdel, hlast]
  by_cases hdp : 0 < (c.nowMs - v.lastTickMs).fdiv 1000
  · rw [if_pos hdp]
    unfold tickExpire
    by_cases hexp : v.timeLeftSec - (c.nowMs - v.lastTickMs).fdiv 1000 ≤ 0
    · rw [if_pos (by dsimp only; omega)]
      refine ⟨by dsimp only; omega, ?_, ?_⟩
      · intro h; dsimp only at h; omega
      · intro _; exact ⟨rfl, rfl⟩
    · rw [if_neg (by dsimp only; omega)]
      refine ⟨by dsimp only, ?_, ?_⟩
      · intro _; exact ⟨hs, rfl⟩
      · intro h; dsimp only at h; omega
  · rw [if_neg hdp]
    unfold tickExpire
    rw [if_neg (by omega)]
    refine ⟨by omega, ?_, ?_⟩
    · intro _; exact ⟨hs, by omega⟩
    · intro h; omega

lemma applyOp_balance_nonneg (s : AppState) (o : Op) (h : 0 ≤ s.pointsBalance) :
    0 ≤ (applyOp s o).pointsBalance := by
  cases o with
  | runTask li t c0 c1 =>
    rcases runTask_cases li t c0 c1 s with ⟨e, he⟩ | he
    · simpa [applyOp, he] using h
    · have hr : 0 ≤ (taskCfg t).reward := by cases t <;> decide
      simp only [applyOp, he, applyReward_balance, ensureDaily_balance]
      omega
  | createStart li =>
    rcases createVpsStart_cases li s with ⟨h1, _⟩ | ⟨h1, h2, _, _⟩
    · simpa [applyOp, h1] using h
    · simp only [applyOp, h1]
      omega
  | createFinish c => simpa [applyOp] using h
  | stop li ok c =>
    rcases stopVps_cases li ok c s with ⟨h1, _⟩ | ⟨h1, _⟩
    · simpa [applyOp, h1] using h
    · simpa [applyOp, h1] using h
  | extend li c =>
    rcases extendVps_cases li c s with ⟨h1, _⟩ | ⟨h1, h2, _⟩
    · simpa [applyOp, h1] using h
    · simp only [applyOp, h1, pushActivity_balance]
      omega
  | tick c => simpa [applyOp] using h

lemma runOps_balance_nonneg (ops : List Op) :
    ∀ s : AppState, 0 ≤ s.pointsBalance → 0 ≤ (runOps s ops).pointsBalance := by
  induction ops with
  | nil => intro s h; exact h
  | cons o ops ih =>
    intro s h
    exact ih (applyOp s o) (applyOp_balance_nonneg s o h)

lemma applyOp_activity_cases (s : AppState) (o : Op) :
    (applyOp s o).activity = s.activity ∨
      ∃ e, (applyOp s o).activity = (e :: s.activity).take activityMax := by
  cases o with
  | runTask li t c0 c1 =>
    rcases runTask_cases li t c0 c1 s with ⟨e, he⟩ | he
    · left; simp [applyOp, he]
    · right
      exact ⟨⟨(taskCfg t).label, (taskCfg t).reward, c1.nowMs⟩, by
        simp [applyOp, he, applyReward_activity]⟩
  | createStart li =>
    rcases createVpsStart_cases li s with ⟨h1, _⟩ | ⟨h1, _, _, _⟩
    · left; simp [applyOp, h1]
    · left; simp [applyOp, h1]
  | createFinish c =>
    right; exact ⟨⟨"Redeemed VPS 6H", -redeemPoints, c.nowMs⟩, by
      simp [applyOp, createVpsFinish_activity]⟩
  | stop li ok c =>
    rcases stopVps_cases li ok c s with ⟨h1, _⟩ | ⟨h1, _⟩
    · left; simp [applyOp, h1]
    · left; simp [applyOp, h1]
  | extend li c =>
    rcases extendVps_cases li c s with ⟨h1, _⟩ | ⟨h1, _, _⟩
    · left; simp [applyOp, h1]
    · right
      exact ⟨⟨"Extended time", -extendPoints, c.nowMs⟩, by
        simp [applyOp, h1, pushActivity_activity]⟩
  | tick c => left; simp [applyOp]

lemma applyOp_activity_len (s : AppState) (o : Op) (h : s.activity.length ≤ activityMax) :
    (applyOp s o).activity.length ≤ activityMax := by
  rcases applyOp_activity_cases s o with h1 | ⟨e, h1⟩ <;> rw [h1]
  · exact h
  · rw [List.length_take]
    exact min_le_left _ _

lemma runOps_activity_len (ops : List Op) :
    ∀ s : AppState, s.activity.length ≤ activityMax →
      (runOps s ops).activity.length ≤ activityMax := by
  induction ops with
  | nil => intro s h; exact h
  | cons o ops ih =>
    intro s h
    exact ih (applyOp s o) (applyOp_activity_len s o h)

lemma applyOp_timeLeft (s : AppState) (o : Op)
    (hs : s.vps.status ≠ VpsStatus.running) (ho : o.isCreateFinish = false) :
    s.vps.timeLeftSec ≤ (applyOp s o).vps.timeLeftSec := by
  cases o with
  | runTask li t c0 c1 =>
    rcases runTask_cases li t c0 c1 s with ⟨e, he⟩ | he
    · simp [applyOp, he]
    · simp [applyOp, he, applyReward_vps]
  | createStart li =>
    rcases createVpsStart_cases li s with ⟨h1, _⟩ | ⟨h1, _, _, _⟩
    · simp [applyOp, h1]
    · simp [applyOp, h1]
  | createFinish c => simp [Op.isCreateFinish] at ho
  | stop li ok c =>
    rcases stopVps_cases li ok c s with ⟨h1, _⟩ | ⟨h1, _⟩
    · simp [applyOp, h1]
    · simp [applyOp, h1]
  | extend li c =>
    rcases extendVps_cases li c s with ⟨h1, _⟩ | ⟨h1, _, _⟩
    · simp [applyOp, h1]
    · have he : (0:Int) ≤ extendSeconds := by decide
      simp only [applyOp, h1, pushActivity_vps]
      omega
  | tick c =>
    simp [applyOp, tickVps_not_running c s.vps hs]

lemma take_after_append {α : Type} (A : List α) :
    ∀ (l : List α) (n m : Nat), m ≤ n → (A ++ l.take n).take m = (A ++ l).take m := by
  induction A with
  | nil =>
    intro l n m h
    rw [List.nil_append, List.nil_append, List.take_take, Nat.min_eq_left h]
  | cons a A ih =>
    intro l n m h
    cases m with
    | zero => simp
    | succ m =>
      simp only [List.cons_append, List.take_succ_cons]
      rw [ih l n m (by omega)]

lemma take_append_front {α : Type} (A B : List α) (h : A.length = activityMax) :
    (A ++ B).take activityMax = A := by
  rw [← h]
  exact List.take_left A B

lemma pushMany_activity (es : List ActivityEntry) :
    ∀ s : AppState, es ≠ [] →
      (pushMany s es).activity = (es.reverse ++ s.activity).take activityMax := by
  induction es with
  | nil => intro s h; exact absurd rfl h
  | cons e es ih =>
    intro s _
    cases es with
    | nil => cases e; simp [pushMany, pushActivity_activity]
    | cons e2 es2 =>
      have step : pushMany s (e :: e2 :: es2) =
          pushMany (pushActivity s e.label e.delta e.ts) (e2 :: es2) := rfl
      rw [step, ih _ (by simp), pushActivity_activity]
      have he : (⟨e.label, e.delta, e.ts⟩ : ActivityEntry) = e := rfl
      rw [he, take_after_append _ _ activityMax activityMax (le_refl _)]
      congr 1
      simp

/-- C1 counterexample: on the tick that lets the countdown expire, the code
stamps lastTickMs with the full current time (src/app.js line 964) instead of
advancing it by the whole elapsed seconds, so the sub-second remainder is
discarded: from lastTickMs = 1000 with 1 second left, a tick at now = 3500
(2500 ms elapsed, 2 whole seconds) leaves lastTickMs = 3500, not
1000 + 2 * 1000 = 3000 as the claim states. -/
theorem C1_cex :
    (tick cexTickClock cexTickState).vps.lastTickMs ≠
      cexTickState.vps.lastTickMs +
        (cexTickClock.nowMs - cexTickState.vps.lastTickMs).fdiv 1000 * 1000 := by
  decide

/-- C1 (amended): for every Running state with positive time left, a nonzero
lastReconcileTimestamp and a current time not earlier than it, one tick
subtracts exactly the whole elapsed seconds from timeLeftSeconds (floored at
0); if time remains, the status stays Running and lastReconcileTimestamp
advances by exactly those whole seconds, carrying the sub-second remainder;
if timeLeftSeconds reaches 0, the status becomes Stopped in that same step
(and lastReconcileTimestamp is then stamped with the current time). The
concrete scenario holds: from Running with 3600 seconds left, a tick after
1500 elapsed seconds yields 2100 and Running, and a further tick after 2200
more seconds yields 0 and Stopped. -/
theorem C1_thm (s : AppState) (c : Clock)
    (hs : s.vps.status = VpsStatus.running) (ht : 0 < s.vps.timeLeftSec)
    (hl : s.vps.lastTickMs ≠ 0) (hc : s.vps.lastTickMs ≤ c.nowMs) :
    ((tick c s).vps.timeLeftSec =
      max 0 (s.vps.timeLeftSec - (c.nowMs - s.vps.lastTickMs).fdiv 1000)) ∧
    (0 < (tick c s).vps.timeLeftSec →
      (tick c s).vps.status = VpsStatus.running ∧
      (tick c s).vps.lastTickMs =
        s.vps.lastTickMs + (c.nowMs - s.vps.lastTickMs).fdiv 1000 * 1000) ∧
    ((tick c s).vps.timeLeftSec = 0 →
      (tick c s).vps.status = VpsStatus.stopped ∧ (tick c s).vps.lastTickMs = c.nowMs) ∧
    ((tick scenClock1 scenState).vps.timeLeftSec = 2100 ∧
      (tick scenClock1 scenState).vps.status = VpsStatus.running ∧
      (tick scenClock2 (tick scenClock1 scenState)).vps.timeLeftSec = 0 ∧
      (tick scenClock2 (tick scenClock1 scenState)).vps.status = VpsStatus.stopped) := by
  have h := tickVps_running_spec c s.vps hs ht hl hc
  rw [tick_vps, tick_vps, tick_vps]
  exact ⟨h.1, h.2.1, h.2.2, by decide⟩

/-- C1 witness: the amended tick theorem instantiated on the Running scenario
state at the 1500-seconds-later clock. -/
theorem C1_wit :
    (tick scenClock1 scenState).vps.timeLeftSec =
      max 0 (scenState.vps.timeLeftSec -
        (scenClock1.nowMs - scenState.vps.lastTickMs).fdiv 1000) ∧
    (tick scenClock1 scenState).vps.status = VpsStatus.running ∧
    (tick scenClock1 scenState).vps.lastTickMs =
      scenState.vps.lastTickMs +
        (scenClock1.nowMs - scenState.vps.lastTickMs).fdiv 1000 * 1000 := by
  have h := C1_thm scenState scenClock1 (by decide) (by decide) (by decide) (by decide)
  exact ⟨h.1, (h.2.1 (by decide)).1, (h.2.1 (by decide)).2⟩

/-- C2: over every sequence of engine operations started from a non-negative
balance, the points balance never becomes negative; the create debit (cost
10) and the extend debit (cost 50) fail with InsufficientFunds exactly when
the cost exceeds the current balance, the sufficiency check happening before
any subtraction, and any failing call leaves the state unchanged. -/
theorem C2_thm (s : AppState) (ops : List Op) (h : 0 ≤ s.pointsBalance) :
    0 ≤ (runOps s ops).pointsBalance ∧
    (∀ s2 : AppState, s2.vps.status = VpsStatus.stopped →
      ((createVpsStart true s2).2 = some EngineError.insufficientFunds ↔
        s2.pointsBalance < redeemPoints)) ∧
    (∀ s2 : AppState, (createVpsStart true s2).2.isSome = true →
      (createVpsStart true s2).1 = s2) ∧
    (∀ (s2 : AppState) (c : Clock), 0 < s2.vps.timeLeftSec →
      ((extendVps true c s2).2 = some EngineError.insufficientFunds ↔
        s2.pointsBalance < extendPoints)) ∧
    (∀ (s2 : AppState) (c : Clock), (extendVps true c s2).2.isSome = true →
      (extendVps true c s2).1 = s2) := by
  refine ⟨runOps_balance_nonneg ops s h, ?_, ?_, ?_, ?_⟩
  · intro s2 hst
    have hno : ¬(s2.vps.status = VpsStatus.running ∨ s2.vps.status = VpsStatus.provisioning) := by
      rw [hst]; simp
    unfold createVpsStart
    rw [if_neg (by simp : ¬(true = false)), if_neg hno]
    by_cases hb : s2.pointsBalance < redeemPoints
    · rw [if_pos hb]; simpa using hb
    · rw [if_neg hb]; simpa using hb
  · intro s2 hf
    rcases createVpsStart_cases true s2 with ⟨h1, _⟩ | ⟨h1, _, _, _⟩
    · exact h1
    · rw [h1] at hf; simp at hf
  · intro s2 c htl
    have hn2 : ¬(s2.vps.timeLeftSec ≤ 0) := not_le.mpr htl
    unfold extendVps
    rw [if_neg (by simp : ¬(true = false)), if_neg hn2]
    by_cases hb : s2.pointsBalance < extendPoints
    · rw [if_pos hb]; simpa using hb
    · rw [if_neg hb]; simpa using hb
  · intro s2 c hf
    rcases extendVps_cases true c s2 with ⟨h1, _⟩ | ⟨h1, _, _⟩
    · exact h1
    · rw [h1] at hf; simp at hf

/-- C2 witness: the ledger invariant instantiated on a zero-balance stopped
state and a create/extend/tick sequence; the create debit at balance 0 fails
with InsufficientFunds and leaves the state unchanged. -/
theorem C2_wit :
    (0:Int) ≤ witLedgerState.pointsBalance ∧
    0 ≤ (runOps witLedgerState witLedgerOps).pointsBalance ∧
    ((createVpsStart true witLedgerState).2 = some EngineError.insufficientFunds ↔
      witLedgerState.pointsBalance < redeemPoints) ∧
    (createVpsStart true witLedgerState).1 = witLedgerState := by
  have h := C2_thm witLedgerState witLedgerOps (by decide)
  exact ⟨by decide, h.1, h.2.1 witLedgerState (by decide), h.2.2.1 witLedgerState (by decide)⟩

/-- C3: with the daily window current for today, a daily claim made while
dailyClaimedUtcDate already equals today fails with AlreadyClaimedToday and
changes nothing at all; the daily-gate reconciliation at any different date
key resets earned to 0 and clears dailyClaimedUtcDate while leaving the
points balance unchanged; and whenever dailyClaimedUtcDate differs from
today (in particular after that reset), the daily claim succeeds, stores
today as the claimed date, and credits the 10-point reward. -/
theorem C3_thm (s : AppState) (c0 c1 : Clock)
    (hcur : s.daily.utcDate = c0.today) :
    (s.daily.dailyClaimedUtcDate = c0.today →
      runTask true TaskType.daily c0 c1 s = (s, some EngineError.alreadyClaimedToday)) ∧
    (∀ t2 : String, s.daily.utcDate ≠ t2 →
      (ensureDaily s t2).daily.earned = 0 ∧
      (ensureDaily s t2).daily.dailyClaimedUtcDate = "" ∧
      (ensureDaily s t2).pointsBalance = s.pointsBalance) ∧
    (s.daily.dailyClaimedUtcDate ≠ c0.today →
      (runTask true TaskType.daily c0 c1 s).2 = none ∧
      (runTask true TaskType.daily c0 c1 s).1.daily.dailyClaimedUtcDate = c0.today ∧
      (runTask true TaskType.daily c0 c1 s).1.pointsBalance = s.pointsBalance + 10) := by
  have hse : ensureDaily s c0.today = s := ensureDaily_eq_self s c0.today hcur
  refine ⟨?_, ?_, ?_⟩
  · intro hcl
    simp [runTask, hse, taskGuard, hcl]
  · intro t2 hne
    rw [ensureDaily_reset s t2 hne]
    exact ⟨rfl, rfl, rfl⟩
  · intro hncl
    have hrun : runTask true TaskType.daily c0 c1 s =
        (applyReward TaskType.daily c0.today c1 s, none) := by
      simp [runTask, hse, taskGuard, hncl]
    rw [hrun]
    exact ⟨rfl, applyReward_daily_claimed _ _ _, by rw [applyReward_balance]; rfl⟩

/-- C3 witness: the once-per-day gate instantiated concretely: an
already-claimed state is rejected unchanged, the reconciliation at the next
date key resets the window without touching the balance, and a fresh state
claims successfully, storing today and crediting 10 points. -/
theorem C3_wit :
    runTask true TaskType.daily c3Clock c3Clock c3StateClaimed =
      (c3StateClaimed, some EngineError.alreadyClaimedToday) ∧
    ((ensureDaily c3StateClaimed "2024-01-02").daily.earned = 0 ∧
      (ensureDaily c3StateClaimed "2024-01-02").daily.dailyClaimedUtcDate = "" ∧
      (ensureDaily c3StateClaimed "2024-01-02").pointsBalance =
        c3StateClaimed.pointsBalance) ∧
    ((runTask true TaskType.daily c3Clock c3Clock c3StateFresh).2 = none ∧
      (runTask true TaskType.daily c3Clock c3Clock c3StateFresh).1.daily.dailyClaimedUtcDate =
        c3Clock.today ∧
      (runTask true TaskType.daily c3Clock c3Clock c3StateFresh).1.pointsBalance =
        c3StateFresh.pointsBalance + 10) := by
  have h1 := C3_thm c3StateClaimed c3Clock c3Clock (by decide)
  have h2 := C3_thm c3StateFresh c3Clock c3Clock (by decide)
  exact ⟨h1.1 (by decide), h1.2.1 "2024-01-02" (by decide), h2.2.2 (by decide)⟩

/-- C4 counterexample: the UTC date key used by the daily claim is derived
once before the simulated delay (src/app.js line 824) and stored after it
(line 853): when the date rolls over during the delay, the stored
dailyClaimedUtcDate is the stale start-of-operation key, not the Clock's
current key at the moment of the store, contradicting the never-cached
claim. -/
theorem C4_cex :
    (runTask true TaskType.daily c4Clock0 c4Clock1 c4State).2 = none ∧
    (runTask true TaskType.daily c4Clock0 c4Clock1 c4State).1.daily.dailyClaimedUtcDate ≠
      c4Clock1.today := by
  decide

/-- C4 (amended): the guard checks of a daily claim use the UTC date key
re-derived at the start of the operation, but that key is cached across the
simulated delay: every successful claimTask(daily) stores exactly the
start-of-operation key as dailyClaimedUtcDate, even when the stored key no
longer matches the Clock at store time. -/
theorem C4_thm (s : AppState) (c0 c1 : Clock)
    (h : (runTask true TaskType.daily c0 c1 s).2 = none) :
    (runTask true TaskType.daily c0 c1 s).1.daily.dailyClaimedUtcDate = c0.today := by
  rcases runTask_cases true TaskType.daily c0 c1 s with ⟨e, he⟩ | he
  · rw [he] at h; simp at h
  · rw [he]
    exact applyReward_daily_claimed _ _ _

/-- C4 witness: the amended theorem instantiated on the rollover run: the
claim that succeeds across midnight stores the start-of-operation key. -/
theorem C4_wit :
    (runTask true TaskType.daily c4Clock0 c4Clock1 c4State).1.daily.dailyClaimedUtcDate =
      c4Clock0.today :=
  C4_thm c4State c4Clock0 c4Clock1 (by decide)

/-- C5: createLease fails with AlreadyActive, mutating nothing, whenever the
status is Provisioning or Running; from Stopped it fails with
InsufficientFunds exactly when the balance is below the cost 10; and with
balance exactly 10 it succeeds: the pre-delay phase debits the balance to 0
and moves to Provisioning (a state the post-delay phase does not revert),
and the post-delay phase ends Running with timeLeftSeconds = 21600,
lastReconcileTimestamp = now, and the balance still 0. -/
theorem C5_thm (s : AppState) (c1 : Clock) :
    (s.vps.status = VpsStatus.provisioning ∨ s.vps.status = VpsStatus.running →
      createVpsStart true s = (s, some EngineError.alreadyActive)) ∧
    (s.vps.status = VpsStatus.stopped →
      ((createVpsStart true s).2 = some EngineError.insufficientFunds ↔
        s.pointsBalance < 10)) ∧
    (s.vps.status = VpsStatus.stopped → s.pointsBalance = 10 →
      (createVpsStart true s).2 = none ∧
      (createVpsStart true s).1.pointsBalance = 0 ∧
      (createVpsStart true s).1.vps.status = VpsStatus.provisioning ∧
      (createVpsFinish c1 (createVpsStart true s).1).vps.status = VpsStatus.running ∧
      (createVpsFinish c1 (createVpsStart true s).1).vps.timeLeftSec = 21600 ∧
      (createVpsFinish c1 (createVpsStart true s).1).vps.lastTickMs = c1.nowMs ∧
      (createVpsFinish c1 (createVpsStart true s).1).pointsBalance = 0) := by
  refine ⟨?_, ?_, ?_⟩
  · intro hd
    unfold createVpsStart
    rw [if_neg (by simp), if_pos hd.symm]
  · intro hst
    have hno : ¬(s.vps.status = VpsStatus.running ∨ s.vps.status = VpsStatus.provisioning) := by
      rw [hst]; simp
    unfold createVpsStart
    rw [if_neg (by simp : ¬(true = false)), if_neg hno]
    by_cases hb : s.pointsBalance < redeemPoints
    · rw [if_pos hb]
      simp only [redeemPoints] at hb
      simpa using hb
    · rw [if_neg hb]
      simp only [redeemPoints] at hb
      simpa using hb
  · intro hst hbal
    have hno : ¬(s.vps.status = VpsStatus.running ∨ s.vps.status = VpsStatus.provisioning) := by
      rw [hst]; simp
    have hnb : ¬(s.pointsBalance < redeemPoints) := by
      unfold redeemPoints; omega
    have hstart : createVpsStart true s =
        ({ s with pointsBalance := s.pointsBalance - redeemPoints,
                  vps := { s.vps with status := VpsStatus.provisioning } }, none) := by
      unfold createVpsStart
      rw [if_neg (by simp), if_neg hno, if_neg hnb]
    rw [hstart]
    refine ⟨rfl, ?_, rfl, ?_, ?_, ?_, ?_⟩
    · show s.pointsBalance - redeemPoints = 0
      unfold redeemPoints; omega
    · rw [createVpsFinish_vps]
    · rw [createVpsFinish_vps]
      show redeemSeconds = 21600
      decide
    · rw [createVpsFinish_vps]
    · show s.pointsBalance - redeemPoints = 0
      unfold redeemPoints; omega

/-- C5 witness: the create flow instantiated on a Stopped state holding
exactly 10 points: the pre-delay phase debits to 0 and sets Provisioning,
the post-delay phase ends Running with 21600 seconds. -/
theorem C5_wit :
    (createVpsStart true c5Stopped).2 = none ∧
    (createVpsStart true c5Stopped).1.pointsBalance = 0 ∧
    (createVpsStart true c5Stopped).1.vps.status = VpsStatus.provisioning ∧
    (createVpsFinish c5Clock (createVpsStart true c5Stopped).1).vps.status =
      VpsStatus.running ∧
    (createVpsFinish c5Clock (createVpsStart true c5Stopped).1).vps.timeLeftSec = 21600 ∧
    (createVpsFinish c5Clock (createVpsStart true c5Stopped).1).vps.lastTickMs =
      c5Clock.nowMs ∧
    (createVpsFinish c5Clock (createVpsStart true c5Stopped).1).pointsBalance = 0 :=
  (C5_thm c5Stopped c5Clock).2.2 (by decide) (by decide)

/-- C6: stop fails with NotRunning unless the status is Running; on success
it moves to Stopped, freezes timeLeftSeconds at its current value, stamps
lastReconcileTimestamp with now, and refunds nothing; an extend on a Stopped
state with time left and at least 50 points succeeds, debits 50, adds 3600
seconds, and leaves the status Stopped; and extend fails with
NothingToExtend exactly when timeLeftSeconds is at most 0. -/
theorem C6_thm (s : AppState) (c : Clock) :
    (s.vps.status ≠ VpsStatus.running →
      stopVps true true c s = (s, some EngineError.notRunning)) ∧
    (s.vps.status = VpsStatus.running →
      (stopVps true true c s).2 = none ∧
      (stopVps true true c s).1.vps.status = VpsStatus.stopped ∧
      (stopVps true true c s).1.vps.timeLeftSec = s.vps.timeLeftSec ∧
      (stopVps true true c s).1.vps.lastTickMs = c.nowMs ∧
      (stopVps true true c s).1.pointsBalance = s.pointsBalance) ∧
    (∀ (s2 : AppState) (c2 : Clock), s2.vps.status = VpsStatus.stopped →
      0 < s2.vps.timeLeftSec → 50 ≤ s2.pointsBalance →
      (extendVps true c2 s2).2 = none ∧
      (extendVps true c2 s2).1.pointsBalance = s2.pointsBalance - 50 ∧
      (extendVps true c2 s2).1.vps.timeLeftSec = s2.vps.timeLeftSec + 3600 ∧
      (extendVps true c2 s2).1.vps.status = VpsStatus.stopped) ∧
    (∀ (s3 : AppState) (c3 : Clock),
      ((extendVps true c3 s3).2 = some EngineError.nothingToExtend ↔
        s3.vps.timeLeftSec ≤ 0)) := by
  refine ⟨?_, ?_, ?_, ?_⟩
  · intro h
    unfold stopVps
    rw [if_neg (by simp : ¬(true = false)), if_pos h]
  · intro h
    have hnn : ¬(s.vps.status ≠ VpsStatus.running) := by simp [h]
    unfold stopVps
    rw [if_neg (by simp : ¬(true = false)), if_neg hnn, if_neg (by simp : ¬(true = false))]
    exact ⟨rfl, rfl, rfl, rfl, rfl⟩
  · intro s2 c2 hst htl hbal
    have hn2 : ¬(s2.vps.timeLeftSec ≤ 0) := not_le.mpr htl
    have hnb : ¬(s2.pointsBalance < extendPoints) := by
      simp only [extendPoints]; omega
    unfold extendVps
    rw [if_neg (by simp : ¬(true = false)), if_neg hn2, if_neg hnb]
    exact ⟨rfl, rfl, rfl, hst⟩
  · intro s3 c3
    unfold extendVps
    rw [if_neg (by simp : ¬(true = false))]
    by_cases h1 : s3.vps.timeLeftSec ≤ 0
    · rw [if_pos h1]; simpa using h1
    · rw [if_neg h1]
      by_cases hb : s3.pointsBalance < extendPoints
      · rw [if_pos hb]; simpa using h1
      · rw [if_neg hb]; simpa using h1

/-- C6 witness: stop on a Running lease with 500 seconds left freezes it and
stamps now; extend on a Stopped lease with 500 seconds and 100 points debits
50, reaches 4100 seconds, stays Stopped; and the nothing-to-extend failure
is equivalent to a non-positive remaining time on that state. -/
theorem C6_wit :
    ((stopVps true true c6ClockA c6Running).2 = none ∧
      (stopVps true true c6ClockA c6Running).1.vps.status = VpsStatus.stopped ∧
      (stopVps true true c6ClockA c6Running).1.vps.timeLeftSec = c6Running.vps.timeLeftSec ∧
      (stopVps true true c6ClockA c6Running).1.vps.lastTickMs = c6ClockA.nowMs ∧
      (stopVps true true c6ClockA c6Running).1.pointsBalance = c6Running.pointsBalance) ∧
    ((extendVps true c6ClockB c6Stopped).2 = none ∧
      (extendVps true c6ClockB c6Stopped).1.pointsBalance = c6Stopped.pointsBalance - 50 ∧
      (extendVps true c6ClockB c6Stopped).1.vps.timeLeftSec =
        c6Stopped.vps.timeLeftSec + 3600 ∧
      (extendVps true c6ClockB c6Stopped).1.vps.status = VpsStatus.stopped) ∧
    ((extendVps true c6ClockB c6Stopped).2 = some EngineError.nothingToExtend ↔
      c6Stopped.vps.timeLeftSec ≤ 0) := by
  have h1 := C6_thm c6Running c6ClockA
  have h2 := C6_thm c6Stopped c6ClockB
  exact ⟨h1.2.1 (by decide),
    h2.2.2.1 c6Stopped c6ClockB (by decide) (by decide) (by decide),
    h2.2.2.2 c6Stopped c6ClockB⟩

/-- C7 counterexample: completing a create on a Provisioning lease that still
carried 25200 seconds of paused time resets timeLeftSeconds to the base
21600 (src/app.js line 889), so timeLeftSeconds decreases while the status
is not Running, contradicting the claim that no operation ever does so. -/
theorem C7_cex :
    c7State.vps.status = VpsStatus.provisioning ∧
    (applyOp c7State (Op.createFinish c7Clock)).vps.timeLeftSec <
      c7State.vps.timeLeftSec := by
  decide

/-- C7 (amended): while the status is not Running, no engine operation or
tick decreases timeLeftSeconds, with the single exception of the post-delay
completion of create, which overwrites timeLeftSeconds with the base lease
duration (21600 seconds) regardless of its prior value. -/
theorem C7_thm (s : AppState) (o : Op) (c : Clock)
    (hs : s.vps.status ≠ VpsStatus.running) :
    (o.isCreateFinish = false → s.vps.timeLeftSec ≤ (applyOp s o).vps.timeLeftSec) ∧
    (applyOp s (Op.createFinish c)).vps.timeLeftSec = redeemSeconds := by
  refine ⟨fun ho => applyOp_timeLeft s o hs ho, ?_⟩
  show (createVpsFinish c s).vps.timeLeftSec = redeemSeconds
  rw [createVpsFinish_vps]

/-- C7 witness: the amended monotonicity instantiated on a Stopped lease and
a tick, plus the create-completion reset on the same state. -/
theorem C7_wit :
    c7WitState.vps.timeLeftSec ≤
      (applyOp c7WitState (Op.tick ⟨9000, "2024-01-01"⟩)).vps.timeLeftSec ∧
    (applyOp c7WitState (Op.createFinish c7Clock)).vps.timeLeftSec = redeemSeconds := by
  have h := C7_thm c7WitState (Op.tick ⟨9000, "2024-01-01"⟩) c7Clock (by decide)
  exact ⟨h.1 (by decide), h.2⟩

/-- C8 counterexample: the reconcile operation ensureDaily does not clear a
stale non-empty claimed date when the stored window date already equals
today: on a state with utcDate = today and dailyClaimedUtcDate from the
previous day, it leaves the claimed date neither empty nor equal to today.
The defensive clear exists only in the load-time normalization (src/app.js
lines 638-640), not in ensureDaily (lines 669-678). -/
theorem C8_cex :
    ¬((ensureDaily c8State "2024-01-02").daily.dailyClaimedUtcDate = "" ∨
      (ensureDaily c8State "2024-01-02").daily.dailyClaimedUtcDate = "2024-01-02") := by
  decide

/-- C8 (amended): the reconcile operation clears dailyClaimedUtcDate (and
guarantees the claimed-date postcondition) only when the stored window date
differs from today, and is the identity when it already equals today; the
defensive clearing of a stale non-empty claimed date whose window date
equals today is performed by the load-time state normalization, after which
dailyClaimedUtcDate is always empty or equal to today. -/
theorem C8_thm (s : AppState) (today : String) :
    (s.daily.utcDate ≠ today → (ensureDaily s today).daily.dailyClaimedUtcDate = "") ∧
    (s.daily.utcDate = today → ensureDaily s today = s) ∧
    ((normalizeState today s).daily.dailyClaimedUtcDate = "" ∨
      (normalizeState today s).daily.dailyClaimedUtcDate = today) := by
  refine ⟨?_, ensureDaily_eq_self s today, ?_⟩
  · intro h
    rw [ensureDaily_reset s today h]
  · simp only [normalizeState]
    by_cases h1 : s.daily.utcDate ≠ today
    · rw [if_pos h1, if_neg (by simp)]
      left; rfl
    · rw [if_neg h1]
      by_cases h2 : s.daily.dailyClaimedUtcDate ≠ "" ∧ s.daily.dailyClaimedUtcDate ≠ today
      · rw [if_pos h2]; left; rfl
      · rw [if_neg h2]
        rcases not_and_or.mp h2 with h3 | h3
        · left; exact not_not.mp h3
        · right; exact not_not.mp h3

/-- C8 witness: ensureDaily on a stale-dated state clears the claimed date,
and the load-time normalization on the stale-claimed state restores the
claimed-date postcondition. -/
theorem C8_wit :
    (ensureDaily c10State "2024-01-02").daily.dailyClaimedUtcDate = "" ∧
    ((normalizeState "2024-01-02" c8State).daily.dailyClaimedUtcDate = "" ∨
      (normalizeState "2024-01-02" c8State).daily.dailyClaimedUtcDate = "2024-01-02") := by
  have h1 := C8_thm c10State "2024-01-02"
  have h2 := C8_thm c8State "2024-01-02"
  exact ⟨h1.1 (by decide), h2.2.2⟩

/-- C9: starting from a log of at most 6 entries, no sequence of engine
operations makes the activity log exceed 6 entries; and appending 6 + k
entries through pushActivity leaves exactly the 6 most recently appended
entries, newest first (the reversal of the appended list with its first k
entries dropped). -/
theorem C9_thm (s : AppState) (ops : List Op) (es : List ActivityEntry) (k : Nat)
    (h6 : s.activity.length ≤ 6) (hlen : es.length = 6 + k) :
    (runOps s ops).activity.length ≤ 6 ∧
    (pushMany s es).activity = (es.drop k).reverse := by
  constructor
  · exact runOps_activity_len ops s h6
  · have hne : es ≠ [] := by
      intro he; rw [he] at hlen; simp at hlen; omega
    rw [pushMany_activity es s hne]
    have hsplit : es.reverse = (es.drop k).reverse ++ (es.take k).reverse := by
      rw [← List.reverse_append, List.take_append_drop]
    rw [hsplit, List.append_assoc]
    refine take_append_front _ _ ?_
    rw [List.length_reverse, List.length_drop, hlen]
    simp only [activityMax]
    omega

/-- C9 witness: the bound and retention instantiated on an empty log, the
ledger operation sequence, and seven concrete entries (k = 1): exactly
entries 2 through 7 remain, newest first. -/
theorem C9_wit :
    (runOps c9State witLedgerOps).activity.length ≤ 6 ∧
    (pushMany c9State c9Es).activity = (c9Es.drop 1).reverse :=
  C9_thm c9State witLedgerOps c9Es 1 (by decide) (by decide)

/-- C10 counterexample: runTask runs the daily-gate reconciliation before its
guards (src/app.js line 814), so a call that then fails its cooldown guard
can still have mutated the daily window: on a stale-dated state with the
short task on cooldown, the failing call resets earned from 7 to 0,
contradicting the claim that failing guards leave all state exactly as it
was. -/
theorem C10_cex :
    (runTask true TaskType.short c10Clock0 c10Clock1 c10State).2 =
      some EngineError.onCooldown ∧
    (runTask true TaskType.short c10Clock0 c10Clock1 c10State).1 ≠ c10State := by
  decide

/-- C10 (amended): every guard failure of createVps, stopVps, or extendVps
(and a declined stop confirmation) leaves the state exactly unchanged; a
guard failure of runTask leaves the state exactly at the result of the
daily-gate reconciliation run at the start of the call, which touches only
the daily window: the points balance, lease state, task cooldowns, and
activity log are unchanged in every guard-failure case. -/
theorem C10_thm (s : AppState) (li ok : Bool) (t : TaskType) (c0 c1 c : Clock) :
    ((createVpsStart li s).2.isSome = true → (createVpsStart li s).1 = s) ∧
    ((stopVps li ok c s).2.isSome = true → (stopVps li ok c s).1 = s) ∧
    ((extendVps li c s).2.isSome = true → (extendVps li c s).1 = s) ∧
    ((runTask li t c0 c1 s).2.isSome = true →
      (runTask li t c0 c1 s).1 = ensureDaily s c0.today) ∧
    (ensureDaily s c0.today).pointsBalance = s.pointsBalance ∧
    (ensureDaily s c0.today).vps = s.vps ∧
    (ensureDaily s c0.today).tasks = s.tasks ∧
    (ensureDaily s c0.today).activity = s.activity := by
  refine ⟨?_, ?_, ?_, ?_, by simp, by simp, by simp, by simp⟩
  · intro hf
    rcases createVpsStart_cases li s with ⟨h1, _⟩ | ⟨h1, _, _, _⟩
    · exact h1
    · rw [h1] at hf; simp at hf
  · intro hf
    rcases stopVps_cases li ok c s with ⟨h1, _⟩ | ⟨h1, _⟩
    · exact h1
    · rw [h1] at hf; simp at hf
  · intro hf
    rcases extendVps_cases li c s with ⟨h1, _⟩ | ⟨h1, _, _⟩
    · exact h1
    · rw [h1] at hf; simp at hf
  · intro hf
    rcases runTask_cases li t c0 c1 s with ⟨e, he⟩ | he
    · rw [he]
    · rw [he] at hf; simp at hf

/-- C10 witness: the guard-failure frame conditions instantiated on the
stale-dated on-cooldown state: the failing create, stop, and extend calls
leave it unchanged, the failing short-task call leaves exactly the
reconciled state, and the reconciliation preserves everything but the daily
window. -/
theorem C10_wit :
    (createVpsStart true c10State).1 = c10State ∧
    (stopVps true true c10Clock0 c10State).1 = c10State ∧
    (extendVps true c10Clock0 c10State).1 = c10State ∧
    (runTask true TaskType.short c10Clock0 c10Clock1 c10State).1 =
      ensureDaily c10State c10Clock0.today ∧
    (ensureDaily c10State c10Clock0.today).pointsBalance = c10State.pointsBalance ∧
    (ensureDaily c10State c10Clock0.today).vps = c10State.vps ∧
    (ensureDaily c10State c10Clock0.today).tasks = c10State.tasks ∧
    (ensureDaily c10State c10Clock0.today).activity = c10State.activity := by
  have h := C10_thm c10State true true TaskType.short c10Clock0 c10Clock1 c10Clock0
  exact ⟨h.1 (by decide), h.2.1 (by decide), h.2.2.1 (by decide), h.2.2.2.1 (by decide),
    h.2.2.2.2.1, h.2.2.2.2.2.1, h.2.2.2.2.2.2.1, h.2.2.2.2.2.2.2⟩

end WebRDP
